import Mathlib

/-!
# Trust, Verification & Economy Engine — formal model

A shallow embedding of the spotshunt firebase backend's core subsystems:
the verification scoring engine, the trust/reputation update, the XP
economy ledger operations, and the QR redemption protocol.  Each Lean
definition translates one JavaScript function from the repository; the
Firestore document store is modelled as explicit lists of documents and
every operation is a pure state transformer returning `Except` for the
typed errors thrown via `HttpsError`.

Conventions:
* JS numbers holding millisecond timestamps and XP totals are `Int`;
  GPS coordinates, distances and trust scores are `ℚ`.
* JS falsy-coalescing (`x || d`) is modelled explicitly: `0`, `""`,
  `null`/`undefined` are falsy (`jsOrQ`, `jsOrInt`, `jsOrStr`).
* Firestore server timestamps are modelled by explicit time parameters.
* The haversine `getDistance` uses floating-point trigonometry, which has
  no exact shallow embedding; all definitions that consume it are
  parametrised by a distance oracle `dist`.
-/

/-- Typed error codes of `functions.https.HttpsError` used by the backend. -/
inductive Err where
  | unauthenticated
  | invalidArgument
  | notFound
  | alreadyExists
  | failedPrecondition
  | permissionDenied
  | internal
  deriving DecidableEq, Repr

deriving instance DecidableEq for Except

/-- JS `x || d` for a possibly-missing rational field: `undefined` and `0` are falsy. -/
def jsOrQ (x : Option ℚ) (d : ℚ) : ℚ :=
  match x with
  | none => d
  | some v => if v = 0 then d else v

/-- JS `x || d` for a possibly-missing integer field: `undefined` and `0` are falsy. -/
def jsOrInt (x : Option Int) (d : Int) : Int :=
  match x with
  | none => d
  | some v => if v = 0 then d else v

/-- JS `x || y` for possibly-missing string fields: `undefined` and `""` are falsy. -/
def jsOrStr (x y : Option String) : Option String :=
  match x with
  | some s => if s = "" then (match y with | some t => if t = "" then none else some t | none => none) else some s
  | none => match y with | some t => if t = "" then none else some t | none => none

/-- `Math.max(0, Math.min(100, score))` — the clamp applied by every sub-check. -/
def clampScore (x : Int) : Int := max 0 (min 100 x)

/-- JS `Math.round` (round half toward +∞) on a rational. -/
def jsRound (x : ℚ) : Int := ⌊x + 1/2⌋

/-- JS `Math.min` on rationals (definitionally `min`, spelled out so that
concrete states evaluate by kernel reduction). -/
def mathMin (a b : ℚ) : ℚ := if a ≤ b then a else b

/-- JS `Math.max` on rationals. -/
def mathMax (a b : ℚ) : ℚ := if a ≤ b then b else a

/-- JS `String.prototype.trim`: strip whitespace from both ends
(structural implementation over the character list). -/
def jsTrim (s : String) : String :=
  String.mk (((s.toList.dropWhile Char.isWhitespace).reverse.dropWhile
    Char.isWhitespace).reverse)

/-- Accumulating worker for `jsSplitOnChar`. -/
def splitOnCharAux (c : Char) : List Char → List Char → List (List Char)
  | [], acc => [acc.reverse]
  | x :: xs, acc =>
    if x = c then acc.reverse :: splitOnCharAux c xs []
    else splitOnCharAux c xs (x :: acc)

/-- JS `String.prototype.split` with a one-character separator. -/
def jsSplitOnChar (s : String) (c : Char) : List String :=
  (splitOnCharAux c s.toList []).map String.mk

/-- JS `String.prototype.toLowerCase` (ASCII, as used by the checks). -/
def jsToLower (s : String) : String := String.mk (s.toList.map Char.toLower)

/-- JS `String.prototype.startsWith`. -/
def jsStartsWith (s pre : String) : Bool := pre.toList.isPrefixOf s.toList

/--
`calculateLevel` (functions.backup-current/xpManagement.js, and the first
declaration in the main functions file): `Level = floor(sqrt(XP / 100)) + 1`,
returning 1 for negative XP.  For integer `xp ≥ 0`,
`floor (sqrt (xp / 100)) = Nat.sqrt (xp / 100)` because `⌊√x⌋ = ⌊√⌊x⌋⌋`.
-/
def calculateLevel (xp : Int) : Int :=
  if xp < 0 then 1 else (Nat.sqrt (xp.toNat / 100) : Int) + 1

/--
`calculateXPLevel` (main functions file): `Level = floor(XP / 500) + 1`.
The main functions file also re-declares `calculateLevel` with this same
`/500` body for its QR tier; in JS the later declaration shadows the first.
-/
def calculateXPLevel (xp : Int) : Int := xp.fdiv 500 + 1

/-! ## Document model -/

/-- A user document (`users/{uid}`); missing numeric fields are 0 / false. -/
structure UserDoc where
  xpPoints : Int := 0
  xp : Int := 0
  level : Int := 1
  xpPending : Int := 0
  spotsDiscovered : Int := 0
  challengesCompleted : Int := 0
  trustScore : ℚ := 0
  spotSubmissions : Int := 0
  spotApprovedCount : Int := 0
  spotRejectedCount : Int := 0
  isShadowBanned : Bool := false
  createdAt : Int := 0
  deriving DecidableEq, Repr

/-- EXIF metadata carried in `spotData.photoMetadata.exif`. -/
structure ExifData where
  dateTimeOriginal : Option Int := none
  gpsLatitude : Option ℚ := none
  gpsLongitude : Option ℚ := none
  deriving DecidableEq, Repr

/-- A spot document (`spots/{id}`). -/
structure SpotDoc where
  id : String
  createdBy : String
  createdAt : Int
  latitude : ℚ := 0
  longitude : ℚ := 0
  title : String := ""
  description : String := ""
  category : String := ""
  accuracy : Option ℚ := none
  isMockLocation : Bool := false
  primaryImageUrl : Option String := none
  imageUrls : List String := []
  photoHash : Option String := none
  exif : Option ExifData := none
  deriving DecidableEq, Repr

/-- A reward document (`rewards/{id}`); `maxRedemptions = 0` models a falsy field. -/
structure RewardDoc where
  docId : String
  title : String := ""
  sponsorId : String := ""
  active : Bool := true
  expiresAt : Option Int := none
  maxRedemptions : Int := 0
  currentRedemptions : Int := 0
  xpRequired : Int := 0
  qrCode : Option String := none
  deriving DecidableEq, Repr

/-- A redemption document (`users/{uid}/redemptions/{id}`), keyed here with
its owner's uid to model the collection-group view. -/
structure RedemptionDoc where
  docId : String
  userId : String
  rewardId : String
  sponsorId : String
  used : Bool := false
  usedAt : Option Int := none
  validatedBy : Option String := none
  xpUsed : Int := 0
  deriving DecidableEq, Repr

/-- A sponsor document (`sponsors/{id}`). -/
structure SponsorDoc where
  docId : String
  ownerUserId : Option String := none
  userId : Option String := none
  qrSecret : Option String := none
  qrVersion : Int := 1
  qrExpiryMinutes : Int := 5
  deriving DecidableEq, Repr

/-- One `xpTransactions` ledger entry (the fields the invariants rely on). -/
structure LedgerEntry where
  userId : String
  action : String
  amount : Int
  previousXP : Int
  newXP : Int
  entryType : String
  deriving DecidableEq, Repr

/-- The document store: each collection as a list of documents. -/
structure Store where
  users : List (String × UserDoc) := []
  spots : List SpotDoc := []
  rewards : List RewardDoc := []
  redemptions : List RedemptionDoc := []
  sponsors : List SponsorDoc := []
  ledger : List LedgerEntry := []
  deriving DecidableEq, Repr

/-- Point read of a user document. -/
def Store.lookupUser (s : Store) (uid : String) : Option UserDoc :=
  (s.users.find? (fun p => p.1 = uid)).map Prod.snd

/-- Write back a user document (update in place). -/
def Store.setUser (s : Store) (uid : String) (u : UserDoc) : Store :=
  { s with users := s.users.map (fun p => if p.1 = uid then (p.1, u) else p) }

/-- Point read of a reward document. -/
def Store.lookupReward (s : Store) (rid : String) : Option RewardDoc :=
  s.rewards.find? (fun r => r.docId = rid)

/-- Update a reward document in place. -/
def Store.setReward (s : Store) (rid : String) (f : RewardDoc → RewardDoc) : Store :=
  { s with rewards := s.rewards.map (fun r => if r.docId = rid then f r else r) }

/-- Point read of a sponsor document. -/
def Store.lookupSponsor (s : Store) (sid : String) : Option SponsorDoc :=
  s.sponsors.find? (fun r => r.docId = sid)

/-- Update a sponsor document in place. -/
def Store.setSponsor (s : Store) (sid : String) (f : SponsorDoc → SponsorDoc) : Store :=
  { s with sponsors := s.sponsors.map (fun r => if r.docId = sid then f r else r) }

/-! ## Verification Scoring Engine (spot verification module) -/

/-- Result of one verification sub-check. -/
structure CheckResult where
  score : Int
  reasons : List String
  flags : List String
  deriving DecidableEq, Repr

/-- `VERIFICATION_CONFIG` thresholds used below: auto-approve 80, manual
review 50; weights 30/20/20/20/10; excellent/good/poor GPS accuracy
20/50/100 m; max speed 50 m/s; teleport 10000 m; 3 submissions/day;
7-day grace period; shadow-ban rejection threshold 0.7. -/
def AUTO_APPROVE_THRESHOLD : Int := 80

/-- Manual-review threshold from `VERIFICATION_CONFIG`. -/
def MANUAL_REVIEW_THRESHOLD : Int := 50

/-- The last-24h same-user submissions query feeding the movement check:
`createdBy ==`, `createdAt > now - 24h`, ordered by `createdAt` descending,
limit 5. -/
def recentSubmissions (s : Store) (spot : SpotDoc) (now : Int) : List SpotDoc :=
  ((s.spots.filter (fun p => p.createdBy = spot.createdBy ∧ p.createdAt > now - 86400000)).insertionSort
    (fun a b => b.createdAt ≤ a.createdAt)).take 5

/-- `analyzeMovementPattern`: flags submissions <60 s apart, >10 km teleports
within <5 min, and implied speed >50 m/s, against the latest prior submission. -/
def analyzeMovementPattern (dist : ℚ → ℚ → ℚ → ℚ → ℚ)
    (submissions : List SpotDoc) (newSpot : SpotDoc) : Bool :=
  match submissions with
  | [] => false
  | lastSubmission :: _ =>
    let timeDiff := newSpot.createdAt - lastSubmission.createdAt
    if timeDiff < 60000 then true
    else
      let distance := dist lastSubmission.latitude lastSubmission.longitude
        newSpot.latitude newSpot.longitude
      if distance > 10000 ∧ timeDiff < 300000 then true
      else
        let speedMPS := distance / ((timeDiff : ℚ) / 1000)
        decide (speedMPS > 50)

/-- `checkLocationAccuracy`: movement analysis, mock-location cap, and the
GPS-accuracy bonus/penalty, clamped to [0,100] on return. -/
def checkLocationAccuracy (dist : ℚ → ℚ → ℚ → ℚ → ℚ)
    (s : Store) (now : Int) (spot : SpotDoc) : CheckResult :=
  let recent := recentSubmissions s spot now
  let base : Int × List String × List String :=
    if recent ≠ [] then
      if analyzeMovementPattern dist recent spot then
        (0, ["unrealistic_movement_detected"], ["suspicious_movement"])
      else
        (80, ["movement_pattern_ok"], [])
    else
      (60, ["first_submission"], [])
  let afterMock : Int × List String × List String :=
    if spot.isMockLocation then
      (min base.1 10, base.2.1 ++ ["mock_location_detected"], base.2.2 ++ ["mock_location_detected"])
    else base
  let accuracy := jsOrQ spot.accuracy 999
  let afterAcc : Int × List String :=
    if accuracy ≤ 20 then (min 100 (afterMock.1 + 20), afterMock.2.1 ++ ["excellent_gps_accuracy"])
    else if accuracy ≤ 50 then (min 100 (afterMock.1 + 10), afterMock.2.1 ++ ["good_gps_accuracy"])
    else if accuracy > 100 then (max 0 (afterMock.1 - 20), afterMock.2.1 ++ ["poor_gps_accuracy"])
    else (afterMock.1, afterMock.2.1)
  { score := clampScore afterAcc.1, reasons := afterAcc.2, flags := afterMock.2.2 }

/-- Normalise a possibly-missing string field: `""` is falsy like `undefined`. -/
def jsStr (x : Option String) : Option String :=
  match x with
  | some v => if v = "" then none else some v
  | none => none

/-- The EXIF tail of `checkPhotoVerification` (photo-timestamp bonus and
EXIF-GPS match/mismatch), followed by the final clamp. -/
def checkPhotoExif (dist : ℚ → ℚ → ℚ → ℚ → ℚ) (spot : SpotDoc)
    (score : Int) (reasons : List String) : CheckResult :=
  match spot.exif with
  | none => { score := clampScore score, reasons := reasons, flags := [] }
  | some exifData =>
    let afterTime : Int × List String :=
      match exifData.dateTimeOriginal with
      | some photoTime =>
        if photoTime ≠ 0 ∧ (photoTime - spot.createdAt).natAbs < 3600000 then
          (score + 10, reasons ++ ["recent_photo"])
        else (score, reasons)
      | none => (score, reasons)
    let afterGps : Int × List String :=
      match exifData.gpsLatitude, exifData.gpsLongitude with
      | some la, some lo =>
        if la ≠ 0 ∧ lo ≠ 0 then
          if dist la lo spot.latitude spot.longitude < 100 then
            (afterTime.1 + 10, afterTime.2 ++ ["exif_location_match"])
          else
            (afterTime.1 - 10, afterTime.2 ++ ["exif_location_mismatch"])
        else afterTime
      | _, _ => afterTime
    { score := clampScore afterGps.1, reasons := afterGps.2, flags := [] }

/-- `checkPhotoVerification`: no-photo penalty, duplicate-image hard stop,
then the EXIF bonuses via `checkPhotoExif`. -/
def checkPhotoVerification (dist : ℚ → ℚ → ℚ → ℚ → ℚ)
    (s : Store) (spot : SpotDoc) : CheckResult :=
  if (jsStr spot.primaryImageUrl).isNone ∧ spot.imageUrls.length = 0 then
    { score := 20, reasons := ["no_photo_provided"], flags := [] }
  else
    match jsStr spot.photoHash with
    | some h =>
      if s.spots.any (fun p => p.photoHash = some h ∧ p.id ≠ spot.id) then
        { score := 0, reasons := ["photo_provided", "duplicate_image_detected"], flags := ["duplicate_image"] }
      else
        checkPhotoExif dist spot 80 ["photo_provided", "unique_image"]
    | none => checkPhotoExif dist spot 60 ["photo_provided"]

/-- One inner cell pass of the `levenshteinDistance` dynamic-programming
row update: `prev` is the previous row starting at the diagonal cell,
`left` the freshly computed cell to the left. -/
def levAux (c : Char) : List Char → Int → List Int → List Int
  | [], _, _ => []
  | x :: xs, left, diag :: rest =>
    let up := rest.headD 0
    let cell := if x = c then diag else 1 + min diag (min left up)
    cell :: levAux c xs cell rest
  | _ :: _, _, [] => []

/-- `levenshteinDistance`: the DP matrix of the source, computed row by row;
row 0 is `0..|str1|`, one row per character of `str2`, and the answer is the
last cell of the last row. -/
def levenshteinDistance (str1 str2 : String) : Int :=
  let cs1 := str1.toList
  let final := str2.toList.foldl
    (fun prev c => (prev.headD 0 + 1) :: levAux c cs1 (prev.headD 0 + 1) prev)
    ((List.range (cs1.length + 1)).map (fun n => (n : Int)))
  final.getLastD 0

/-- `calculateTextSimilarity`: normalised Levenshtein similarity
`(longer.length - editDistance) / longer.length`. -/
def calculateTextSimilarity (str1 str2 : String) : ℚ :=
  if str1 = str2 then 1
  else if str1.length = 0 ∨ str2.length = 0 then 0
  else
    let longer := if str1.length > str2.length then str1 else str2
    let shorter := if str1.length > str2.length then str2 else str1
    ((longer.length : ℚ) - (levenshteinDistance longer shorter : ℚ)) / (longer.length : ℚ)

/-- The candidate loop of `checkDuplicateSpots`: walks the bounding-box query
results accumulating `(score, duplicatesFound, reasons)`; a title similarity
above 0.8 sets score 0, raises `potential_duplicate` and breaks. -/
def dupLoop (dist : ℚ → ℚ → ℚ → ℚ → ℚ) (spot : SpotDoc) :
    List SpotDoc → Int → Int → List String → Int × Int × List String × List String
  | [], score, dfound, reasons => (score, dfound, reasons, [])
  | d :: rest, score, dfound, reasons =>
    if d.id = spot.id then dupLoop dist spot rest score dfound reasons
    else
      let distance := dist d.latitude d.longitude spot.latitude spot.longitude
      if distance < 50 then
        let dfound := dfound + 1
        let titleSimilarity := calculateTextSimilarity (jsToLower spot.title) (jsToLower d.title)
        if titleSimilarity > 8/10 then
          (0, dfound, reasons ++ ["duplicate_spot_detected"], ["potential_duplicate"])
        else if distance < 25 then
          dupLoop dist spot rest (score - 30) dfound (reasons ++ ["very_close_spot_exists"])
        else
          dupLoop dist spot rest score dfound reasons
      else if distance < 100 then
        dupLoop dist spot rest (score - 10) dfound (reasons ++ ["nearby_spot_exists"])
      else
        dupLoop dist spot rest score dfound reasons

/-- `checkDuplicateSpots`: bounding-box query (±0.001° on both axes), the
candidate loop, the `no_nearby_duplicates` reason, and the final clamp. -/
def checkDuplicateSpots (dist : ℚ → ℚ → ℚ → ℚ → ℚ)
    (s : Store) (spot : SpotDoc) : CheckResult :=
  let nearby := s.spots.filter (fun p =>
    spot.latitude - 1/1000 ≤ p.latitude ∧ p.latitude ≤ spot.latitude + 1/1000 ∧
    spot.longitude - 1/1000 ≤ p.longitude ∧ p.longitude ≤ spot.longitude + 1/1000)
  let r := dupLoop dist spot nearby 80 0 []
  let reasons := if r.2.1 = 0 then r.2.2.1 ++ ["no_nearby_duplicates"] else r.2.2.1
  { score := clampScore r.1, reasons := reasons, flags := r.2.2.2 }

/-- `checkUserTrust`: persisted trust score ×100, shadow-ban hard stop,
account-age bonus, approval-rate adjustments, daily rate limit; clamped. -/
def checkUserTrust (s : Store) (now todayStart : Int) (userId : String) : CheckResult :=
  match s.lookupUser userId with
  | none => { score := 30, reasons := ["new_user_account"], flags := [] }
  | some userData =>
    if userData.isShadowBanned then
      { score := 0, reasons := ["shadow_banned_user"], flags := ["shadow_banned_user"] }
    else
      let trustScore := jsOrQ (some userData.trustScore) 1
      let score0 := jsRound (trustScore * 100)
      let afterAge : Int × List String :=
        if now - userData.createdAt > 604800000 then (score0 + 10, ["established_account"])
        else (score0, [])
      let totalSubmissions := userData.spotSubmissions
      let approvedCount := userData.spotApprovedCount
      let afterHistory : Int × List String × List String :=
        if totalSubmissions > 0 then
          let approvalRate := (approvedCount : ℚ) / (totalSubmissions : ℚ)
          if approvalRate > 4/5 then
            (afterAge.1 + 15, afterAge.2 ++ ["high_approval_rate"], [])
          else if approvalRate < 3/10 then
            (afterAge.1 - 20, afterAge.2 ++ ["low_approval_rate"],
              if approvalRate < 7/10 ∧ totalSubmissions ≥ 5 then ["shadow_ban_candidate"] else [])
          else (afterAge.1, afterAge.2, [])
        else (afterAge.1, afterAge.2, [])
      let todayCount := (s.spots.filter (fun p =>
        p.createdBy = userId ∧ p.createdAt ≥ todayStart)).length
      let afterRate : Int × List String × List String :=
        if todayCount ≥ 3 then
          (min afterHistory.1 20, afterHistory.2.1 ++ ["too_many_submissions_today"],
            afterHistory.2.2 ++ ["rate_limit_exceeded"])
        else afterHistory
      { score := clampScore afterRate.1, reasons := afterRate.2.1, flags := afterRate.2.2 }

/-- Does the list contain six identical consecutive characters
(the `(.)\1{5,}` spam pattern)?  `p` is the previous character, `cnt` the
length of its current run. -/
def runAux : List Char → Char → Nat → Bool
  | [], _, cnt => cnt ≥ 6
  | c :: rest, p, cnt =>
    if c = p then (if cnt + 1 ≥ 6 then true else runAux rest p (cnt + 1))
    else runAux rest c 1

/-- Entry point for the repeated-character spam pattern. -/
def hasRepeatRun6 (l : List Char) : Bool :=
  match l with
  | [] => false
  | c :: rest => runAux rest c 1

/-- Does the list contain ten consecutive digits (the `[0-9]{10,}` pattern)? -/
def digitRunAux : List Char → Nat → Bool
  | [], _ => false
  | c :: rest, cnt =>
    if c.isDigit then (if cnt + 1 ≥ 10 then true else digitRunAux rest (cnt + 1))
    else digitRunAux rest 0

/-- Entry point for the long-digit-run spam pattern. -/
def hasDigitRun10 (l : List Char) : Bool := digitRunAux l 0

/-- Substring containment over character lists (regex literal search). -/
def containsSub (sub : List Char) : List Char → Bool
  | [] => sub.isPrefixOf ([] : List Char)
  | c :: t => sub.isPrefixOf (c :: t) || containsSub sub t

/-- Substring containment for strings. -/
def strContains (hay sub : String) : Bool := containsSub sub.toList hay.toList

/-- `checkContentQuality`: title/description length checks, spam regexes
(first match only), blocklist terms, category validation; clamped. -/
def checkContentQuality (spot : SpotDoc) : CheckResult :=
  let title := jsTrim spot.title
  let afterTitle : Int × List String :=
    if title.length < 5 then (70 - 30, ["title_too_short"])
    else if title.length > 100 then (70 - 10, ["title_too_long"])
    else (70, ["title_length_ok"])
  let titleLower := jsToLower title
  let spamHit := hasRepeatRun6 titleLower.toList || hasDigitRun10 titleLower.toList ||
    strContains titleLower "www." || strContains titleLower "http" ||
    strContains titleLower ".com" ||
    strContains titleLower "buy" || strContains titleLower "sale" ||
    strContains titleLower "cheap" || strContains titleLower "free" ||
    strContains titleLower "win" || strContains titleLower "prize"
  let afterSpam : Int × List String :=
    if spamHit then (afterTitle.1 - 20, afterTitle.2 ++ ["spam_detected_in_title"])
    else afterTitle
  let description := jsTrim spot.description
  let afterDesc : Int × List String :=
    if description.length < 10 then (afterSpam.1 - 15, afterSpam.2 ++ ["description_too_short"])
    else if description.length > 500 then (afterSpam.1 - 5, afterSpam.2 ++ ["description_too_long"])
    else (afterSpam.1, afterSpam.2 ++ ["description_length_ok"])
  let fullText := jsToLower (title ++ " " ++ description)
  let profanityHit := strContains fullText "spam" || strContains fullText "test" ||
    strContains fullText "fake"
  let afterProfanity : Int × List String :=
    if profanityHit then (afterDesc.1 - 15, afterDesc.2 ++ ["inappropriate_content"])
    else afterDesc
  let validCategories := ["CAFE", "VIEWPOINT", "ART", "PARK", "HISTORICAL", "HIDDEN_GEM"]
  let afterCategory : Int × List String :=
    if spot.category ∈ validCategories then afterProfanity
    else (afterProfanity.1 - 10, afterProfanity.2 ++ ["invalid_category"])
  { score := clampScore afterCategory.1, reasons := afterCategory.2, flags := [] }

/-- The five weighted sub-scores of one verification run. -/
structure DetailedScores where
  locationAccuracy : Int
  photoVerification : Int
  duplicateDetection : Int
  userTrust : Int
  contentQuality : Int
  deriving DecidableEq, Repr

/-- Outcome of `performSpotVerification`. -/
structure VerifyResult where
  status : String
  score : Int
  reasons : List String
  flags : List String
  detailedScores : DetailedScores
  deriving DecidableEq, Repr

/-- The combination block of `performSpotVerification`: concatenate reasons
and flags, weight the five sub-scores 30/20/20/20/10 through `Math.round`,
and apply the decision policy (flags ⇒ FLAGGED; score ≥ 80 ⇒ AUTO_APPROVED;
otherwise PENDING, the two sub-80 branches of the source both yielding
PENDING). -/
def combineVerification (l p d u c : CheckResult) : VerifyResult :=
  let reasons := l.reasons ++ p.reasons ++ d.reasons ++ u.reasons ++ c.reasons
  let flags := l.flags ++ p.flags ++ d.flags ++ u.flags ++ c.flags
  let totalScore := jsRound
    (((l.score * 30 + p.score * 20 + d.score * 20 + u.score * 20 + c.score * 10 : Int) : ℚ) / 100)
  let status :=
    if flags.length > 0 then "FLAGGED"
    else if totalScore ≥ AUTO_APPROVE_THRESHOLD then "AUTO_APPROVED"
    else if totalScore < MANUAL_REVIEW_THRESHOLD then "PENDING"
    else "PENDING"
  { status := status, score := totalScore,
    reasons := reasons.filter (fun r => r ≠ ""), flags := flags,
    detailedScores :=
      ⟨l.score, p.score, d.score, u.score, c.score⟩ }

/-- `performSpotVerification`: the five sub-checks fed into the combination
block. -/
def performSpotVerification (dist : ℚ → ℚ → ℚ → ℚ → ℚ)
    (s : Store) (now todayStart : Int) (spot : SpotDoc) : VerifyResult :=
  combineVerification
    (checkLocationAccuracy dist s now spot)
    (checkPhotoVerification dist s spot)
    (checkDuplicateSpots dist s spot)
    (checkUserTrust s now todayStart spot.createdBy)
    (checkContentQuality spot)

/-! ## Trust/Reputation Ledger -/

/-- `updateUserTrustScore`: inside one transaction, bump the submission
counters, adjust trust by +0.02 (AUTO_APPROVED) or −0.05 (REJECTED) from
`userData.trustScore || 1.0`, and set `isShadowBanned` when the post-update
total is ≥5 with rejection rate ≥0.7 (the field is otherwise left as-is). -/
def updateUserTrustScore (s : Store) (userId status : String) : Store :=
  match s.lookupUser userId with
  | none => s
  | some userData =>
    let currentTrust := jsOrQ (some userData.trustScore) 1
    let submissions := userData.spotSubmissions
    let approved := userData.spotApprovedCount
    let rejected := userData.spotRejectedCount
    let adjusted : Int × Int × ℚ :=
      if status = "AUTO_APPROVED" then (approved + 1, rejected, mathMin 1 (currentTrust + 1/50))
      else if status = "REJECTED" then (approved, rejected + 1, mathMax 0 (currentTrust - 1/20))
      else (approved, rejected, currentTrust)
    let totalAfterUpdate := submissions + 1
    let banned :=
      if totalAfterUpdate ≥ 5 ∧ (adjusted.2.1 : ℚ) / (totalAfterUpdate : ℚ) ≥ 7/10 then true
      else userData.isShadowBanned
    s.setUser userId { userData with
      spotSubmissions := totalAfterUpdate,
      spotApprovedCount := adjusted.1,
      spotRejectedCount := adjusted.2.1,
      trustScore := adjusted.2.2,
      isShadowBanned := banned }

/-! ## Economy Ledger (XP engine) -/

/-- Success payload of the XP-award transactions. -/
structure XPResult where
  newTotalXP : Int
  newLevel : Int
  leveledUp : Bool
  deriving DecidableEq, Repr

/-- `awardUserXP` (xpManagement.js and its twin in the main functions file):
one transaction reading `xpPoints`, adding `amount`, recomputing the level,
bumping the action counters, and appending one AWARD ledger entry.  A missing
user makes the transaction throw, surfaced as an error with no write. -/
def awardUserXP (s : Store) (userId action : String) (amount : Int) :
    Except Err XPResult × Store :=
  match s.lookupUser userId with
  | none => (Except.error Err.notFound, s)
  | some userData =>
    let currentXP := userData.xpPoints
    let newTotalXP := currentXP + amount
    let currentLevel := calculateLevel currentXP
    let newLevel := calculateLevel newTotalXP
    let leveledUp := decide (newLevel > currentLevel)
    let u1 := { userData with
      xpPoints := newTotalXP,
      level := newLevel,
      spotsDiscovered :=
        if action = "VISIT_SPOT" then userData.spotsDiscovered + 1 else userData.spotsDiscovered,
      challengesCompleted :=
        if action = "COMPLETE_CHALLENGE" then userData.challengesCompleted + 1
        else userData.challengesCompleted }
    let entry : LedgerEntry :=
      { userId := userId, action := action, amount := amount,
        previousXP := currentXP, newXP := newTotalXP, entryType := "AWARD" }
    let s1 := s.setUser userId u1
    (Except.ok ⟨newTotalXP, newLevel, leveledUp⟩, { s1 with ledger := s1.ledger ++ [entry] })

/-- `releaseSpotXP` (xpManagement.js): credits `xpPoints`, decrements the
pending counter floored at 0, recomputes the level, and appends one
`SPOT_APPROVED` AWARD ledger entry, all in one transaction. -/
def releaseSpotXP (s : Store) (userId spotId : String) (amount : Int) :
    Except Err XPResult × Store :=
  match s.lookupUser userId with
  | none => (Except.error Err.notFound, s)
  | some userData =>
    let currentXP := userData.xpPoints
    let pendingXP := userData.xpPending
    let newTotalXP := currentXP + amount
    let newPendingXP := max 0 (pendingXP - amount)
    let currentLevel := calculateLevel currentXP
    let newLevel := calculateLevel newTotalXP
    let leveledUp := decide (newLevel > currentLevel)
    let u1 := { userData with
      xpPoints := newTotalXP, xpPending := newPendingXP, level := newLevel }
    let entry : LedgerEntry :=
      { userId := userId, action := "SPOT_APPROVED",
        amount := amount, previousXP := currentXP, newXP := newTotalXP,
        entryType := "AWARD" }
    let _ := spotId
    let s1 := s.setUser userId u1
    (Except.ok ⟨newTotalXP, newLevel, leveledUp⟩, { s1 with ledger := s1.ledger ++ [entry] })

/-- `userData.xpPoints || userData.xp || 0`: the falsy-coalescing balance
read used by the admin XP paths. -/
def xpChain (u : UserDoc) : Int :=
  if u.xpPoints = 0 then u.xp else u.xpPoints

/-- `adminGrantXP` (main functions file): validates the arguments, reads the
balance through `xpPoints || xp || 0`, and writes `xpPoints` and `xp` to the
new total.  No `xpTransactions` ledger entry is written. -/
def adminGrantXP (s : Store) (userId : String) (xpAmount : Int) (reason : String) :
    Except Err (Int × Int) × Store :=
  if userId = "" ∨ xpAmount = 0 ∨ reason = "" then (Except.error Err.invalidArgument, s)
  else if xpAmount ≤ 0 then (Except.error Err.invalidArgument, s)
  else
    match s.lookupUser userId with
    | none => (Except.error Err.notFound, s)
    | some userData =>
      let currentXP := xpChain userData
      let newXP := currentXP + xpAmount
      (Except.ok (currentXP, newXP), s.setUser userId { userData with xpPoints := newXP, xp := newXP })

/-- `adjustUserXP` (main functions file): clamps the adjusted balance at 0,
recomputes the level via `calculateXPLevel`, writes `xpPoints`, `xp` and
`level`, and appends one `ADMIN_ADJUSTMENT` ledger entry whose `amount` is
the raw (unclamped) adjustment. -/
def adjustUserXP (s : Store) (userId : String) (xpAmount : Int)
    (reason entryType : String) : Except Err (Int × Int) × Store :=
  if userId = "" ∨ reason = "" then (Except.error Err.invalidArgument, s)
  else
    match s.lookupUser userId with
    | none => (Except.error Err.notFound, s)
    | some userData =>
      let currentXP := xpChain userData
      let newXP := max 0 (currentXP + xpAmount)
      let newLevel := calculateXPLevel newXP
      let u1 := { userData with xpPoints := newXP, xp := newXP, level := newLevel }
      let entry : LedgerEntry :=
        { userId := userId, action := "ADMIN_ADJUSTMENT",
          amount := xpAmount, previousXP := currentXP, newXP := newXP,
          entryType := entryType }
      let s1 := s.setUser userId u1
      (Except.ok (currentXP, newXP), { s1 with ledger := s1.ledger ++ [entry] })

/-- Replaying a sequence of ledger entries from zero: each entry applies its
signed `amount`. -/
def replayXP (entries : List LedgerEntry) : Int :=
  entries.foldl (fun acc e => acc + e.amount) 0

/-- The ledger-replay invariant for one user: replaying the user's
`xpTransactions` entries from zero reproduces the current `xpPoints`. -/
def ledgerConsistent (s : Store) (uid : String) : Prop :=
  replayXP (s.ledger.filter (fun e => e.userId = uid)) =
    ((s.lookupUser uid).map UserDoc.xpPoints).getD 0

/-! ## QR Redemption Protocol -/

/-- Characters matched by the `[a-zA-Z0-9_-]` identifier class. -/
def idChar (c : Char) : Bool := c.isAlphanum || c = '_' || c = '-'

/-- Remainder of the haystack after the first occurrence of `sub`
(the unanchored regex search). -/
def afterSub (sub : List Char) : List Char → Option (List Char)
  | [] => if sub.isPrefixOf ([] : List Char) then some [] else none
  | c :: t =>
    if sub.isPrefixOf (c :: t) then some ((c :: t).drop sub.length)
    else afterSub sub t

/-- Match `marker([a-zA-Z0-9_-]+)` anywhere in `qr` and return the greedy
capture group. -/
def extractAfterMarker (qr marker : String) : Option String :=
  match afterSub marker.toList qr.toList with
  | none => none
  | some rest =>
    let run := rest.takeWhile idChar
    if run = [] then none else some (String.mk run)

/-- The three reward-QR formats accepted by `redeemByQR`, tried in order:
deep link `mysteriSpots://reward/{id}`, legacy `REWARD_{id}_...`
(an empty second segment is falsy and falls through), and a plain
`[a-zA-Z0-9_-]{10,}` identifier. -/
def extractRewardId (qrCode : String) : Option String :=
  match extractAfterMarker qrCode "mysteriSpots://reward/" with
  | some rid => some rid
  | none =>
    let legacy : Option String :=
      if jsStartsWith qrCode "REWARD_" then
        let parts := jsSplitOnChar qrCode '_'
        if parts.length ≥ 2 then
          match parts[1]? with
          | some p => if p = "" then none else some p
          | none => none
        else none
      else none
    match legacy with
    | some rid => some rid
    | none =>
      if qrCode.length ≥ 10 ∧ qrCode.toList.all idChar then some qrCode else none

/-- The two redemption-QR formats accepted by `validateRedemption`:
deep link `mysteriSpots://redemption/{id}`, then `{userId}/{redemptionId}`. -/
def extractRedemptionId (qr : String) : Option String :=
  match extractAfterMarker qr "mysteriSpots://redemption/" with
  | some rid => some rid
  | none =>
    if strContains qr "/" then
      let parts := jsSplitOnChar qr '/'
      if parts.length = 2 then
        match parts[1]? with
        | some p => if p = "" then none else some p
        | none => none
      else none
    else none

/-- Success payload of `redeemByQR`. -/
structure RedeemOk where
  redemptionId : String
  newXP : Int
  newLevel : Int
  deriving DecidableEq, Repr

/-- The expiry check of `redeemByQR`: a falsy (absent or 0) `expiresAt`
never expires, otherwise the embedded timestamp is compared with the
current time. -/
def rewardExpired (reward : RewardDoc) (now : Int) : Bool :=
  match reward.expiresAt with
  | some e => if e = 0 then false else decide (e < now)
  | none => false

/-- `redeemByQR`: parse the reward id, check the reward (exists, active,
unexpired, below its redemption cap), check for an existing un-used
redemption of the same reward by the same user, check the `xp` balance, and
then in one transaction create the redemption record, debit `xp`, recompute
`level`, and increment the reward's counter.  `now` models the server clock
and `freshId` the generated redemption document id; the in-transaction
balance re-read sees the same sequential state. -/
def redeemByQR (s : Store) (userId qrCode : String) (now : Int) (freshId : String) :
    Except Err RedeemOk × Store :=
  if jsTrim qrCode = "" then (Except.error Err.invalidArgument, s)
  else
    match extractRewardId qrCode with
    | none => (Except.error Err.invalidArgument, s)
    | some rewardId =>
      match s.lookupReward rewardId with
      | none => (Except.error Err.notFound, s)
      | some reward =>
        if ¬ reward.active then (Except.error Err.failedPrecondition, s)
        else if rewardExpired reward now then (Except.error Err.failedPrecondition, s)
          else if reward.maxRedemptions ≠ 0 ∧ reward.currentRedemptions ≥ reward.maxRedemptions then
            (Except.error Err.failedPrecondition, s)
          else if s.redemptions.any (fun r =>
              r.userId = userId ∧ r.rewardId = rewardId ∧ r.used = false) then
            (Except.error Err.alreadyExists, s)
          else
            match s.lookupUser userId with
            | none => (Except.error Err.notFound, s)
            | some userData =>
              let currentXP := userData.xp
              let xpCost := reward.xpRequired
              if currentXP < xpCost then (Except.error Err.failedPrecondition, s)
              else
                let newXP := currentXP - xpCost
                let newLevel := calculateXPLevel newXP
                let newRedemption : RedemptionDoc :=
                  { docId := freshId, userId := userId, rewardId := rewardId,
                    sponsorId := reward.sponsorId, used := false, usedAt := none,
                    validatedBy := none, xpUsed := xpCost }
                let s1 := s.setUser userId { userData with xp := newXP, level := newLevel }
                let s2 := s1.setReward rewardId
                  (fun r => { r with currentRedemptions := r.currentRedemptions + 1 })
                let s3 := { s2 with redemptions := s2.redemptions ++ [newRedemption] }
                (Except.ok ⟨freshId, newXP, newLevel⟩, s3)

/-- `validateQRCode` (reward preview): requires a non-empty code and then
resolves it purely by equality against the rewards' stored `qrCode` field;
`some r` means `valid: true`.  No signature or version is inspected. -/
def validateQRCode (s : Store) (qrCode : String) : Except Err (Option RewardDoc) :=
  if qrCode = "" then Except.error Err.invalidArgument
  else Except.ok (s.rewards.find? (fun r => r.qrCode = some qrCode))

/-- `regenerateSponsorQR`: increments the sponsor's `qrVersion` (the
subsequent re-issuance of a signed payload is not modelled; no stored
document other than the sponsor's is touched). -/
def regenerateSponsorQR (s : Store) (sponsorId : String) : Store :=
  s.setSponsor sponsorId (fun sp => { sp with qrVersion := sp.qrVersion + 1 })

/-- The read/check phase of sponsor-side `validateRedemption`: parse the
redemption id, search the first 100 documents returned by the unfiltered
collection-group query, load the sponsor, check ownership
(`ownerUserId || userId`), and reject an already-used record. -/
def validateRedemptionReads (s : Store) (sponsorUserId redemptionQRCode : String) :
    Except Err (String × String) :=
  if jsTrim redemptionQRCode = "" then Except.error Err.invalidArgument
  else
    match extractRedemptionId redemptionQRCode with
    | none => Except.error Err.invalidArgument
    | some redemptionId =>
      match (s.redemptions.take 100).find? (fun d => d.docId = redemptionId) with
      | none => Except.error Err.notFound
      | some redemption =>
        match s.lookupSponsor redemption.sponsorId with
        | none => Except.error Err.notFound
        | some sponsorData =>
          match jsOrStr sponsorData.ownerUserId sponsorData.userId with
          | none => Except.error Err.permissionDenied
          | some owner =>
            if owner ≠ sponsorUserId then Except.error Err.permissionDenied
            else if redemption.used then Except.error Err.alreadyExists
            else Except.ok (redemption.userId, redemptionId)

/-- The write phase of `validateRedemption`: the plain (non-transactional)
`update` setting `used`, `usedAt` and `validatedBy`. -/
def markRedemptionUsed (s : Store) (uid rid validator : String) (t : Int) : Store :=
  { s with redemptions := s.redemptions.map (fun d =>
      if d.userId = uid ∧ d.docId = rid then
        { d with used := true, usedAt := some t, validatedBy := some validator }
      else d) }

/-- One execution of `validateRedemption` with an explicit read snapshot and
write target: the source performs its checks on previously fetched data and
then issues a plain `update` outside any transaction, so the store the write
lands on (`sWrite`) may have changed since the reads (`sRead`). -/
def validateRedemptionRun (sRead sWrite : Store) (sponsorUserId qr : String) (t : Int) :
    Except Err (String × String) × Store :=
  match validateRedemptionReads sRead sponsorUserId qr with
  | Except.error e => (Except.error e, sWrite)
  | Except.ok (uid, rid) => (Except.ok (uid, rid), markRedemptionUsed sWrite uid rid sponsorUserId t)

/-- `validateRedemption` run without interference: reads and write against
the same store. -/
def validateRedemption (s : Store) (sponsorUserId qr : String) (t : Int) :
    Except Err (String × String) × Store :=
  validateRedemptionRun s s sponsorUserId qr t

/-! ## Concrete example states

Small stores used to evaluate the operations at explicit inputs. -/

/-- A distance oracle that reports 0 m everywhere (the distance value is
irrelevant to the scenarios below, which short-circuit before using it). -/
def exDist : ℚ → ℚ → ℚ → ℚ → ℚ := fun _ _ _ _ => 0

/-- A previous submission by user `u`, created at t = 970000 ms. -/
def exPrevSpot : SpotDoc := { id := "p1", createdBy := "u", createdAt := 970000 }

/-- A new submission by the same user 30 s later with GPS accuracy 15 m. -/
def exNewSpot : SpotDoc :=
  { id := "p2", createdBy := "u", createdAt := 1000000, accuracy := some 15 }

/-- Store holding only the previous submission. -/
def exStoreMovement : Store := { spots := [exPrevSpot] }

/-- A user document with all fields at their defaults (0 XP, empty history). -/
def exFreshUser : UserDoc := {}

/-- Store with one fresh user and an empty ledger (trivially consistent). -/
def exStoreLedger : Store := { users := [("u", exFreshUser)] }

/-- A sponsor owned by sponsor-side account `sv`. -/
def exSponsor : SponsorDoc := { docId := "sp", ownerUserId := some "sv" }

/-- An un-used redemption of reward `reward9876` held by user `u`. -/
def exRedemption : RedemptionDoc :=
  { docId := "red1", userId := "u", rewardId := "reward9876", sponsorId := "sp" }

/-- Store for the sponsor-side validation scenario. -/
def exStoreValidation : Store := { sponsors := [exSponsor], redemptions := [exRedemption] }

/-- The deep-link redemption code presented by the user. -/
def exRedemptionQR : String := "mysteriSpots://redemption/red1"

/-- A sponsor carrying QR version 1 and a signing secret. -/
def exSponsorV1 : SponsorDoc := { docId := "sp", qrSecret := some "k0", qrVersion := 1 }

/-- A reward whose stored `qrCode` string was issued while the sponsor was
at QR version 1. -/
def exRewardWithCode : RewardDoc := { docId := "rw1", sponsorId := "sp", qrCode := some "OLDCODE" }

/-- Store for the QR-rotation scenario. -/
def exStoreRotation : Store := { sponsors := [exSponsorV1], rewards := [exRewardWithCode] }

/-- A reward capped at one redemption, costing 10 XP. -/
def exCappedReward : RewardDoc :=
  { docId := "reward9876", sponsorId := "sp", active := true,
    maxRedemptions := 1, currentRedemptions := 0, xpRequired := 10 }

/-- A user holding 100 points on the `xp` field. -/
def exRichUser : UserDoc := { xp := 100 }

/-- Store for the double-redemption scenario with the capped reward. -/
def exStoreCapped : Store := { users := [("u", exRichUser)], rewards := [exCappedReward] }

/-- The same scenario with an uncapped reward. -/
def exUncappedReward : RewardDoc :=
  { docId := "reward9876", sponsorId := "sp", active := true,
    maxRedemptions := 0, currentRedemptions := 0, xpRequired := 10 }

/-- Store for the double-redemption scenario with the uncapped reward. -/
def exStoreUncapped : Store := { users := [("u", exRichUser)], rewards := [exUncappedReward] }

/-- The deep-link reward code for `reward9876`. -/
def exRewardQR : String := "mysteriSpots://reward/reward9876"

/-- State after the first (successful) redemption of the uncapped reward. -/
def exStoreUncappedAfter : Store := (redeemByQR exStoreUncapped "u" exRewardQR 5000 "red1").2

/-- A user whose stored trust score has been driven to exactly 0. -/
def exZeroTrustUser : UserDoc := { trustScore := 0 }

/-- Store for the zero-trust rejection scenario. -/
def exStoreZeroTrust : Store := { users := [("u", exZeroTrustUser)] }

/-- A user one submission away from the shadow-ban threshold. -/
def exBadHistoryUser : UserDoc :=
  { trustScore := 1/2, spotSubmissions := 4, spotApprovedCount := 0, spotRejectedCount := 4 }

/-- Store for the shadow-ban trigger scenario. -/
def exStoreBadHistory : Store := { users := [("u", exBadHistoryUser)] }

/-- One of the 100 redemption documents returned ahead of the target by the
unfiltered collection-group query. -/
def exFillerRedemption : RedemptionDoc :=
  { docId := "filler", userId := "w", rewardId := "r0", sponsorId := "sp" }

/-- The un-used redemption sitting beyond the query's 100-document limit. -/
def exBuriedRedemption : RedemptionDoc :=
  { docId := "target99", userId := "u", rewardId := "r0", sponsorId := "sp", used := false }

/-- Store whose collection-group query returns 100 fillers, burying the target. -/
def exStoreBuried : Store :=
  { redemptions := List.replicate 100 exFillerRedemption ++ [exBuriedRedemption] }

/-- A second store agreeing with `exStoreValidation` on the first 100
redemptions and on the sponsors, differing elsewhere. -/
def exStoreValidationB : Store :=
  { exStoreValidation with spots := [exPrevSpot] }

/-! ## Helper lemmas -/

theorem clampScore_nonneg (x : Int) : 0 ≤ clampScore x := by
  unfold clampScore; omega

theorem clampScore_le_hundred (x : Int) : clampScore x ≤ 100 := by
  unfold clampScore; omega

theorem checkLocationAccuracy_score_range (dist : ℚ → ℚ → ℚ → ℚ → ℚ)
    (s : Store) (now : Int) (spot : SpotDoc) :
    0 ≤ (checkLocationAccuracy dist s now spot).score ∧
      (checkLocationAccuracy dist s now spot).score ≤ 100 := by
  unfold checkLocationAccuracy
  exact ⟨clampScore_nonneg _, clampScore_le_hundred _⟩

theorem checkPhotoExif_score_range (dist : ℚ → ℚ → ℚ → ℚ → ℚ) (spot : SpotDoc)
    (score : Int) (reasons : List String) :
    0 ≤ (checkPhotoExif dist spot score reasons).score ∧
      (checkPhotoExif dist spot score reasons).score ≤ 100 := by
  unfold checkPhotoExif
  cases spot.exif with
  | none => exact ⟨clampScore_nonneg _, clampScore_le_hundred _⟩
  | some e => exact ⟨clampScore_nonneg _, clampScore_le_hundred _⟩

theorem checkPhotoVerification_score_range (dist : ℚ → ℚ → ℚ → ℚ → ℚ)
    (s : Store) (spot : SpotDoc) :
    0 ≤ (checkPhotoVerification dist s spot).score ∧
      (checkPhotoVerification dist s spot).score ≤ 100 := by
  unfold checkPhotoVerification
  split
  · exact ⟨by norm_num, by norm_num⟩
  · split
    · split
      · exact ⟨le_refl 0, by norm_num⟩
      · exact checkPhotoExif_score_range ..
    · exact checkPhotoExif_score_range ..

theorem checkDuplicateSpots_score_range (dist : ℚ → ℚ → ℚ → ℚ → ℚ)
    (s : Store) (spot : SpotDoc) :
    0 ≤ (checkDuplicateSpots dist s spot).score ∧
      (checkDuplicateSpots dist s spot).score ≤ 100 := by
  unfold checkDuplicateSpots
  exact ⟨clampScore_nonneg _, clampScore_le_hundred _⟩

theorem checkUserTrust_score_range (s : Store) (now todayStart : Int) (userId : String) :
    0 ≤ (checkUserTrust s now todayStart userId).score ∧
      (checkUserTrust s now todayStart userId).score ≤ 100 := by
  unfold checkUserTrust
  split
  · exact ⟨by norm_num, by norm_num⟩
  · split
    · exact ⟨le_refl 0, by norm_num⟩
    · exact ⟨clampScore_nonneg _, clampScore_le_hundred _⟩

theorem checkContentQuality_score_range (spot : SpotDoc) :
    0 ≤ (checkContentQuality spot).score ∧ (checkContentQuality spot).score ≤ 100 := by
  unfold checkContentQuality
  exact ⟨clampScore_nonneg _, clampScore_le_hundred _⟩

theorem jsRound_div_hundred (w : Int) : jsRound ((w : ℚ) / 100) = (w + 50) / 100 := by
  unfold jsRound
  have h : (w : ℚ) / 100 + 1/2 = ((w + 50 : Int) : ℚ) / ((100 : ℕ) : ℚ) := by
    push_cast; ring
  rw [h, Rat.floor_intCast_div_natCast]
  norm_num

theorem combineVerification_detailed (l p d u c : CheckResult) :
    (combineVerification l p d u c).detailedScores =
      ⟨l.score, p.score, d.score, u.score, c.score⟩ := rfl

theorem combineVerification_score (l p d u c : CheckResult) :
    (combineVerification l p d u c).score =
      (l.score * 30 + p.score * 20 + d.score * 20 + u.score * 20 + c.score * 10 + 50) / 100 := by
  unfold combineVerification
  exact jsRound_div_hundred _

theorem combineVerification_flags (l p d u c : CheckResult) :
    (combineVerification l p d u c).flags =
      l.flags ++ p.flags ++ d.flags ++ u.flags ++ c.flags := rfl

theorem combineVerification_status (l p d u c : CheckResult) :
    ((combineVerification l p d u c).status = "FLAGGED" ↔
        (combineVerification l p d u c).flags ≠ []) ∧
    ((combineVerification l p d u c).flags = [] →
      (((combineVerification l p d u c).status = "AUTO_APPROVED" ↔
          AUTO_APPROVE_THRESHOLD ≤ (combineVerification l p d u c).score) ∧
       ((combineVerification l p d u c).status = "PENDING" ↔
          (combineVerification l p d u c).score < AUTO_APPROVE_THRESHOLD))) := by
  unfold combineVerification
  dsimp only
  by_cases hf : (l.flags ++ p.flags ++ d.flags ++ u.flags ++ c.flags).length > 0
  · have hne : l.flags ++ p.flags ++ d.flags ++ u.flags ++ c.flags ≠ [] := by
      intro h
      rw [h] at hf
      simp at hf
    rw [if_pos hf]
    exact ⟨⟨fun _ => hne, fun _ => rfl⟩, fun h => absurd h hne⟩
  · have heq : l.flags ++ p.flags ++ d.flags ++ u.flags ++ c.flags = [] := by
      simpa using Nat.le_zero.mp (Nat.not_lt.mp hf)
    rw [if_neg hf]
    refine ⟨⟨fun h => ?_, fun h => absurd heq h⟩, fun _ => ⟨⟨fun h => ?_, fun h => ?_⟩, ⟨fun h => ?_, fun h => ?_⟩⟩⟩
    · split_ifs at h <;> exact absurd h (by decide)
    · by_contra hs
      rw [if_neg hs] at h
      split_ifs at h <;> exact absurd h (by decide)
    · rw [if_pos h]
    · by_contra hs
      rw [if_pos (not_lt.mp hs)] at h
      exact absurd h (by decide)
    · rw [if_neg (not_le.mpr h)]
      split_ifs <;> rfl

theorem find_map_set_self (uid : String) (u1 : UserDoc) :
    ∀ (l : List (String × UserDoc)),
      (l.find? (fun p => p.1 = uid)).isSome →
      ((l.map (fun p => if p.1 = uid then (p.1, u1) else p)).find?
          (fun p => p.1 = uid)).map Prod.snd = some u1 := by
  intro l
  induction l with
  | nil => intro h; simp [List.find?] at h
  | cons hd tl ih =>
    intro h
    by_cases hh : hd.1 = uid
    · simp only [List.map_cons, if_pos hh]
      rw [List.find?_cons_of_pos _ (by simpa using hh)]
      rfl
    · simp only [List.map_cons, if_neg hh]
      rw [List.find?_cons_of_neg _ (by simpa using hh)]
      rw [List.find?_cons_of_neg _ (by simpa using hh)] at h
      exact ih h

theorem find_map_set_other (uid v : String) (u1 : UserDoc) (hv : v ≠ uid) :
    ∀ (l : List (String × UserDoc)),
      (l.map (fun p => if p.1 = uid then (p.1, u1) else p)).find? (fun p => p.1 = v) =
        l.find? (fun p => p.1 = v) := by
  intro l
  induction l with
  | nil => rfl
  | cons hd tl ih =>
    by_cases hh : hd.1 = uid
    · have hnv : ¬ hd.1 = v := by rw [hh]; exact fun h => hv h.symm
      simp only [List.map_cons, if_pos hh]
      rw [List.find?_cons_of_neg _ (by simpa using hnv),
        List.find?_cons_of_neg _ (by simpa using hnv)]
      exact ih
    · simp only [List.map_cons, if_neg hh]
      by_cases hvv : hd.1 = v
      · rw [List.find?_cons_of_pos _ (by simpa using hvv),
          List.find?_cons_of_pos _ (by simpa using hvv)]
      · rw [List.find?_cons_of_neg _ (by simpa using hvv),
          List.find?_cons_of_neg _ (by simpa using hvv)]
        exact ih

theorem lookupUser_setUser_self (s : Store) (uid : String) (u u1 : UserDoc)
    (h : s.lookupUser uid = some u) :
    (s.setUser uid u1).lookupUser uid = some u1 := by
  unfold Store.lookupUser Store.setUser at *
  dsimp only
  apply find_map_set_self
  cases hf : s.users.find? (fun p => p.1 = uid) with
  | none => rw [hf] at h; simp at h
  | some p => simp [hf]

theorem lookupUser_setUser_other (s : Store) (uid v : String) (u1 : UserDoc)
    (hv : v ≠ uid) :
    (s.setUser uid u1).lookupUser v = s.lookupUser v := by
  unfold Store.lookupUser Store.setUser
  dsimp only
  rw [find_map_set_other uid v u1 hv]

theorem replayXP_acc (l : List LedgerEntry) :
    ∀ acc : Int, l.foldl (fun a e => a + e.amount) acc = acc + replayXP l := by
  induction l with
  | nil => intro acc; simp [replayXP]
  | cons e t ih =>
    intro acc
    simp only [List.foldl_cons, replayXP] at *
    rw [ih, ih (0 + e.amount)]
    ring

theorem replayXP_append (a b : List LedgerEntry) :
    replayXP (a ++ b) = replayXP a + replayXP b := by
  unfold replayXP
  rw [List.foldl_append]
  rw [replayXP_acc]
  rfl

/-! ## Claims -/

/-- C3: there is a non-negative XP total on which the two level formulas of
the repository — `floor(sqrt(xp/100))+1` (`calculateLevel`) and
`floor(xp/500)+1` (`calculateXPLevel`) — disagree, so the level a user
receives depends on which code path computed it. -/
theorem claim_C3 :
    ∃ xp : Int, 0 ≤ xp ∧ calculateLevel xp ≠ calculateXPLevel xp := by
  refine ⟨500, by norm_num, ?_⟩
  have h5 : Nat.sqrt 5 = 2 := (Nat.eq_sqrt.mpr (by norm_num)).symm
  unfold calculateLevel calculateXPLevel
  norm_num
  rw [show ((500 : Int).toNat / 100) = 5 from rfl, h5]
  decide

/-- C5 (counterexample): the claim says rotating the sponsor's QR version
makes validation of a code issued under the previous version fail via the
signature check.  In the code, `validateQRCode` resolves the presented
string purely against the rewards' stored `qrCode` fields: after
`regenerateSponsorQR` bumps the version from 1 to 2, the code issued under
version 1 still validates as `valid: true`. -/
theorem claim_C5_counterexample :
    ((exStoreRotation.lookupSponsor "sp").map SponsorDoc.qrVersion = some 1) ∧
    (((regenerateSponsorQR exStoreRotation "sp").lookupSponsor "sp").map
        SponsorDoc.qrVersion = some 2) ∧
    validateQRCode exStoreRotation "OLDCODE" = Except.ok (some exRewardWithCode) ∧
    validateQRCode (regenerateSponsorQR exStoreRotation "sp") "OLDCODE" =
      Except.ok (some exRewardWithCode) := by
  decide

/-- C5 (amended): `regenerateSponsorQR` increments the sponsor's `qrVersion`,
but the validation path performs no signature or version check — it resolves
the presented string against the rewards' stored `qrCode` fields only — so
the verdict of `validateQRCode` is identical before and after rotation and
previously issued codes keep validating. -/
theorem claim_C5 : ∀ (s : Store) (sponsorId qrCode : String),
    validateQRCode (regenerateSponsorQR s sponsorId) qrCode = validateQRCode s qrCode := by
  intro s sponsorId qrCode
  rfl

/-- C2 (counterexample): a submission 30 s after the same user's previous
one, with reported GPS accuracy 15 m.  The `suspicious_movement` flag is
raised, but the GPS-accuracy bonus is applied after the movement score is
forced to 0, so the location sub-score is 20, not 0. -/
theorem claim_C2_counterexample :
    "suspicious_movement" ∈ (checkLocationAccuracy exDist exStoreMovement 1000000 exNewSpot).flags ∧
    (checkLocationAccuracy exDist exStoreMovement 1000000 exNewSpot).score = 20 ∧
    (checkLocationAccuracy exDist exStoreMovement 1000000 exNewSpot).score ≠ 0 := by
  decide

/-- C7 (counterexample): a user whose stored trust score is exactly 0.  The
update reads the score through `userData.trustScore || 1.0`, so a rejection
yields `max(0, 1.0 − 0.05) = 0.95` instead of the claimed
`max(0, 0 − 0.05) = 0`. -/
theorem claim_C7_counterexample :
    (((updateUserTrustScore exStoreZeroTrust "u" "REJECTED").lookupUser "u").map
        UserDoc.trustScore = some (19/20 : ℚ)) ∧
    mathMax 0 (exZeroTrustUser.trustScore - 1/20) = 0 ∧
    (19/20 : ℚ) ≠ 0 := by
  refine ⟨?_, ?_, by norm_num⟩
  · simp only [updateUserTrustScore, exStoreZeroTrust, exZeroTrustUser, Store.lookupUser,
      Store.setUser, List.find?, List.map_cons, List.map_nil]
    norm_num [jsOrQ, mathMax, mathMin]
    rw [if_neg (show ¬("REJECTED" = "AUTO_APPROVED") by decide)]
  · simp only [exZeroTrustUser]
    norm_num [mathMax]

/-- C6 (counterexample): user `u` redeems a reward capped at one redemption,
so afterwards `u` holds an un-used redemption of it; the second `redeemByQR`
call then fails with FailedPrecondition (the max-redemptions check fires
before the duplicate-redemption check), not AlreadyExists, though it still
debits no XP and creates no redemption record. -/
theorem claim_C6_counterexample :
    ((redeemByQR exStoreCapped "u" exRewardQR 5000 "red1").2.redemptions.any
        (fun r => r.userId = "u" ∧ r.rewardId = "reward9876" ∧ r.used = false) = true) ∧
    (redeemByQR (redeemByQR exStoreCapped "u" exRewardQR 5000 "red1").2
        "u" exRewardQR 6000 "red2").1 = Except.error Err.failedPrecondition ∧
    (redeemByQR (redeemByQR exStoreCapped "u" exRewardQR 5000 "red1").2
        "u" exRewardQR 6000 "red2").1 ≠ Except.error Err.alreadyExists ∧
    (redeemByQR (redeemByQR exStoreCapped "u" exRewardQR 5000 "red1").2
        "u" exRewardQR 6000 "red2").2 =
      (redeemByQR exStoreCapped "u" exRewardQR 5000 "red1").2 := by
  decide

/-- C1 (counterexample): starting from a consistent state (fresh user, empty
ledger), `adminGrantXP` raises `xpPoints` from 0 to 50 but appends no
`xpTransactions` entry, so replaying the (still empty) ledger from zero
yields 0 ≠ 50 and the replay invariant breaks. -/
theorem claim_C1_counterexample :
    ledgerConsistent exStoreLedger "u" ∧
    (adminGrantXP exStoreLedger "u" 50 "correction").1 = Except.ok (0, 50) ∧
    (((adminGrantXP exStoreLedger "u" 50 "correction").2.lookupUser "u").map
        UserDoc.xpPoints = some 50) ∧
    (adminGrantXP exStoreLedger "u" 50 "correction").2.ledger = [] ∧
    ¬ ledgerConsistent (adminGrantXP exStoreLedger "u" 50 "correction").2 "u" := by
  refine ⟨by unfold ledgerConsistent; decide, by decide, by decide, by decide,
    by unfold ledgerConsistent; decide⟩

/-- C4 (counterexample): the used check is not re-verified inside the write.
A first sponsor-side validation marks the redemption used at t = 111.  A
second validation whose reads saw the pre-write snapshot but whose plain
`update` lands on the post-write store still reports success — not
`AlreadyExists`, although the record is already marked used at write time —
and overwrites `usedAt` with 222, so the mark-used mutation applies twice. -/
theorem claim_C4_counterexample :
    ((validateRedemption exStoreValidation "sv" exRedemptionQR 111).2.redemptions.map
        RedemptionDoc.used = [true]) ∧
    (validateRedemptionRun exStoreValidation
        (validateRedemption exStoreValidation "sv" exRedemptionQR 111).2
        "sv" exRedemptionQR 222).1 = Except.ok ("u", "red1") ∧
    ((validateRedemptionRun exStoreValidation
        (validateRedemption exStoreValidation "sv" exRedemptionQR 111).2
        "sv" exRedemptionQR 222).2.redemptions.map RedemptionDoc.usedAt = [some 222]) ∧
    some (222 : Int) ≠ some (111 : Int) := by
  refine ⟨by decide, by decide, by decide, by decide⟩

/-- C9: `validateRedemption` resolves the scanned code against at most the
first 100 documents of the unfiltered collection-group query (its reads
depend only on that prefix and the sponsors collection), and there is a
store state — 100 other redemptions ahead of the target — in which the
target redemption exists un-used yet validation fails with NotFound and
writes nothing. -/
theorem claim_C9 :
    (∀ (s1 s2 : Store) (uid qr : String),
      s1.redemptions.take 100 = s2.redemptions.take 100 →
      s1.sponsors = s2.sponsors →
      validateRedemptionReads s1 uid qr = validateRedemptionReads s2 uid qr) ∧
    (∃ (s : Store) (r : RedemptionDoc),
      r ∈ s.redemptions ∧ r.used = false ∧ r.docId = "target99" ∧
      (validateRedemption s "sv" "mysteriSpots://redemption/target99" 111).1 =
        Except.error Err.notFound ∧
      (validateRedemption s "sv" "mysteriSpots://redemption/target99" 111).2 = s) := by
  constructor
  · intro s1 s2 uid qr hr hs
    unfold validateRedemptionReads Store.lookupSponsor
    rw [hr, hs]
  · refine ⟨exStoreBuried, exBuriedRedemption, ?_, by decide, by decide, by decide, by decide⟩
    unfold exStoreBuried
    exact List.mem_append_right _ (List.mem_singleton.mpr rfl)

theorem lookupUser_map_field_setUser {α : Type} (f : UserDoc → α) (s : Store)
    (uid : String) (u u1 : UserDoc) (hu : s.lookupUser uid = some u)
    (hf : f u1 = f u) (v : String) :
    ((s.setUser uid u1).lookupUser v).map f = (s.lookupUser v).map f := by
  by_cases hv : v = uid
  · subst hv
    rw [lookupUser_setUser_self s v u u1 hu, hu]
    simp [hf]
  · rw [lookupUser_setUser_other s uid v u1 hv]

/-- C10: `redeemByQR` checks and debits the `xp` field and never touches any
user's `xpPoints`, while `awardUserXP` and `releaseSpotXP` credit `xpPoints`
and never touch any user's `xp` — so a QR redemption never changes
`xpPoints`, and XP earned through the award paths never increases the
balance the redemption path checks and debits. -/
theorem claim_C10 : ∀ (s : Store) (uid action qr fid spotId v : String) (amount now : Int),
    ((redeemByQR s uid qr now fid).2.lookupUser v).map UserDoc.xpPoints =
      (s.lookupUser v).map UserDoc.xpPoints ∧
    ((awardUserXP s uid action amount).2.lookupUser v).map UserDoc.xp =
      (s.lookupUser v).map UserDoc.xp ∧
    ((releaseSpotXP s uid spotId amount).2.lookupUser v).map UserDoc.xp =
      (s.lookupUser v).map UserDoc.xp := by
  intro s uid action qr fid spotId v amount now
  refine ⟨?_, ?_, ?_⟩
  · unfold redeemByQR
    split
    · rfl
    · split
      · rfl
      · split
        · rfl
        · split
          · rfl
          · split
            · rfl
            · split
              · rfl
              · split
                · rfl
                · split
                  · rfl
                  · next userData heq =>
                      dsimp only
                      split
                      · rfl
                      · refine lookupUser_map_field_setUser UserDoc.xpPoints s uid
                          userData _ heq ?_ v
                        rfl
  · unfold awardUserXP
    split
    · rfl
    · next userData heq =>
        refine lookupUser_map_field_setUser UserDoc.xp s uid userData _ heq ?_ v
        rfl
  · unfold releaseSpotXP
    split
    · rfl
    · next userData heq =>
        refine lookupUser_map_field_setUser UserDoc.xp s uid userData _ heq ?_ v
        rfl

/-- C2 (amended): when the same user's latest submission in the 24 h window
is less than 60 s old, `checkLocationAccuracy` always raises the
`suspicious_movement` flag and forces the movement score to 0 — but the
GPS-accuracy adjustment is applied afterwards, so the location sub-score is
20 for reported accuracy ≤ 20 m and 10 for accuracy ≤ 50 m, and 0 only
otherwise. -/
theorem claim_C2 (dist : ℚ → ℚ → ℚ → ℚ → ℚ) (s : Store) (now : Int)
    (spot prev : SpotDoc) (rest : List SpotDoc)
    (hq : recentSubmissions s spot now = prev :: rest)
    (ht : spot.createdAt - prev.createdAt < 60000) :
    "suspicious_movement" ∈ (checkLocationAccuracy dist s now spot).flags ∧
    (checkLocationAccuracy dist s now spot).score =
      (if jsOrQ spot.accuracy 999 ≤ 20 then 20
       else if jsOrQ spot.accuracy 999 ≤ 50 then 10 else 0) := by
  have hm : analyzeMovementPattern dist (prev :: rest) spot = true := by
    unfold analyzeMovementPattern
    dsimp only
    rw [if_pos ht]
  unfold checkLocationAccuracy
  rw [hq]
  dsimp only
  rw [hm]
  rw [if_pos (List.cons_ne_nil prev rest)]
  rw [if_pos rfl]
  constructor
  · by_cases hmk : spot.isMockLocation <;> simp [hmk]
  · by_cases hmk : spot.isMockLocation <;>
      by_cases h20 : jsOrQ spot.accuracy 999 ≤ 20 <;>
      by_cases h50 : jsOrQ spot.accuracy 999 ≤ 50 <;>
      by_cases h100 : jsOrQ spot.accuracy 999 > 100 <;>
      simp [hmk, h20, h50, h100, clampScore]

/-- C2 (witness for the amended theorem): the 30-seconds-apart, 15 m-accuracy
scenario. -/
theorem claim_C2_witness :
    "suspicious_movement" ∈ (checkLocationAccuracy exDist exStoreMovement 1000000 exNewSpot).flags ∧
    (checkLocationAccuracy exDist exStoreMovement 1000000 exNewSpot).score =
      (if jsOrQ exNewSpot.accuracy 999 ≤ 20 then 20
       else if jsOrQ exNewSpot.accuracy 999 ≤ 50 then 10 else 0) :=
  claim_C2 exDist exStoreMovement 1000000 exNewSpot exPrevSpot []
    (by decide) (by decide)

/-- C7 (amended): on a verification decision, `updateUserTrustScore` bumps
the submission counters and adjusts the trust score by +0.02 (approval) or
−0.05 (rejection) clamped to [0,1] — but the adjustment starts from
`trustScore || 1.0`, so a missing or exactly-zero stored score is first
replaced by the default 1.0.  Whenever the post-update total is ≥5 with
rejection rate ≥0.7, `isShadowBanned` is set; the update never clears an
already-set `isShadowBanned`. -/
theorem claim_C7 (s : Store) (uid status : String) (u : UserDoc)
    (h : s.lookupUser uid = some u) (ht0 : 0 ≤ u.trustScore) (ht1 : u.trustScore ≤ 1) :
    ∃ u1 : UserDoc, (updateUserTrustScore s uid status).lookupUser uid = some u1 ∧
      (status = "AUTO_APPROVED" →
        u1.trustScore = mathMin 1 (jsOrQ (some u.trustScore) 1 + 1/50) ∧
        u1.spotApprovedCount = u.spotApprovedCount + 1) ∧
      (status = "REJECTED" →
        u1.trustScore = mathMax 0 (jsOrQ (some u.trustScore) 1 - 1/20) ∧
        u1.spotRejectedCount = u.spotRejectedCount + 1) ∧
      (0 ≤ u1.trustScore ∧ u1.trustScore ≤ 1) ∧
      u1.spotSubmissions = u.spotSubmissions + 1 ∧
      (u.isShadowBanned = true → u1.isShadowBanned = true) ∧
      (u.spotSubmissions + 1 ≥ 5 →
        (u1.spotRejectedCount : ℚ) / ((u.spotSubmissions + 1 : Int) : ℚ) ≥ 7/10 →
        u1.isShadowBanned = true) := by
  unfold updateUserTrustScore
  rw [h]
  dsimp only
  refine ⟨_, lookupUser_setUser_self s uid u _ h, ?_, ?_, ?_, rfl, ?_, ?_⟩
  · intro hst
    subst hst
    dsimp only
    rw [if_pos rfl]
    exact ⟨rfl, rfl⟩
  · intro hst
    subst hst
    dsimp only
    rw [if_neg (by decide), if_pos rfl]
    exact ⟨rfl, rfl⟩
  · dsimp only
    unfold mathMin mathMax jsOrQ
    dsimp only
    split_ifs <;> constructor <;> dsimp only <;> linarith
  · intro hb
    dsimp only
    split_ifs <;> first | rfl | exact hb
  · intro h5 hrate
    dsimp only
    rw [if_pos (show _ ∧ _ from ⟨h5, hrate⟩)]

/-- C7 (witness for the amended theorem): a user with trust score 0.5 and
four rejected submissions is rejected a fifth time, triggering the
shadow ban. -/
theorem claim_C7_witness :
    ∃ u1 : UserDoc,
      (updateUserTrustScore exStoreBadHistory "u" "REJECTED").lookupUser "u" = some u1 ∧
      ("REJECTED" = "AUTO_APPROVED" →
        u1.trustScore = mathMin 1 (jsOrQ (some exBadHistoryUser.trustScore) 1 + 1/50) ∧
        u1.spotApprovedCount = exBadHistoryUser.spotApprovedCount + 1) ∧
      ("REJECTED" = "REJECTED" →
        u1.trustScore = mathMax 0 (jsOrQ (some exBadHistoryUser.trustScore) 1 - 1/20) ∧
        u1.spotRejectedCount = exBadHistoryUser.spotRejectedCount + 1) ∧
      (0 ≤ u1.trustScore ∧ u1.trustScore ≤ 1) ∧
      u1.spotSubmissions = exBadHistoryUser.spotSubmissions + 1 ∧
      (exBadHistoryUser.isShadowBanned = true → u1.isShadowBanned = true) ∧
      (exBadHistoryUser.spotSubmissions + 1 ≥ 5 →
        (u1.spotRejectedCount : ℚ) / ((exBadHistoryUser.spotSubmissions + 1 : Int) : ℚ) ≥ 7/10 →
        u1.isShadowBanned = true) :=
  claim_C7 exStoreBadHistory "u" "REJECTED" exBadHistoryUser rfl
    (by norm_num [exBadHistoryUser]) (by norm_num [exBadHistoryUser])

/-- C4 (amended): in a run without interference, sponsor-side
`validateRedemption` fails `AlreadyExists` and leaves the store unchanged
when the located record is already marked used, and otherwise marks exactly
the matching record used (setting `usedAt` and `validatedBy`) — but the used
check is evaluated on the pre-read snapshot and the mark-used write is a
plain update outside any transaction, so it is not re-verified atomically
with the write. -/
theorem claim_C4 (s : Store) (sponsorUid qr : String) (t : Int) (rid : String)
    (rdm : RedemptionDoc) (sp : SponsorDoc)
    (h0 : jsTrim qr ≠ "")
    (h1 : extractRedemptionId qr = some rid)
    (h2 : (s.redemptions.take 100).find? (fun d => d.docId = rid) = some rdm)
    (h3 : s.lookupSponsor rdm.sponsorId = some sp)
    (h4 : jsOrStr sp.ownerUserId sp.userId = some sponsorUid) :
    (rdm.used = true →
      validateRedemption s sponsorUid qr t = (Except.error Err.alreadyExists, s)) ∧
    (rdm.used = false →
      (validateRedemption s sponsorUid qr t).1 = Except.ok (rdm.userId, rid) ∧
      (validateRedemption s sponsorUid qr t).2.redemptions =
        s.redemptions.map (fun d =>
          if d.userId = rdm.userId ∧ d.docId = rid then
            { d with used := true, usedAt := some t, validatedBy := some sponsorUid }
          else d) ∧
      (validateRedemption s sponsorUid qr t).2.users = s.users) := by
  have hr : validateRedemptionReads s sponsorUid qr =
      (if rdm.used then Except.error Err.alreadyExists
       else Except.ok (rdm.userId, rid)) := by
    unfold validateRedemptionReads
    rw [if_neg h0, h1]
    dsimp only
    rw [h2]
    dsimp only
    rw [h3]
    dsimp only
    rw [h4]
    dsimp only
    rw [if_neg (fun hh => hh rfl)]
  constructor
  · intro hu
    unfold validateRedemption validateRedemptionRun
    rw [hr, if_pos hu]
  · intro hu
    unfold validateRedemption validateRedemptionRun
    rw [hr, if_neg (by simp [hu])]
    exact ⟨rfl, rfl, rfl⟩

/-- C4 (witness for the amended theorem): validating the un-used redemption
`red1` of the concrete store. -/
theorem claim_C4_witness :
    (exRedemption.used = true →
      validateRedemption exStoreValidation "sv" exRedemptionQR 111 =
        (Except.error Err.alreadyExists, exStoreValidation)) ∧
    (exRedemption.used = false →
      (validateRedemption exStoreValidation "sv" exRedemptionQR 111).1 =
        Except.ok (exRedemption.userId, "red1") ∧
      (validateRedemption exStoreValidation "sv" exRedemptionQR 111).2.redemptions =
        exStoreValidation.redemptions.map (fun d =>
          if d.userId = exRedemption.userId ∧ d.docId = "red1" then
            { d with used := true, usedAt := some 111, validatedBy := some "sv" }
          else d) ∧
      (validateRedemption exStoreValidation "sv" exRedemptionQR 111).2.users =
        exStoreValidation.users) :=
  claim_C4 exStoreValidation "sv" exRedemptionQR 111 "red1" exRedemption exSponsor
    (by decide) (by decide) (by decide) (by decide) (by decide)

/-- C6 (amended): when the caller already holds an un-used redemption of the
reward the code resolves to, `redeemByQR` always fails before the debit
transaction — the store is unchanged, so no XP is debited and no redemption
record is created — and the error is `AlreadyExists` provided the reward is
still active, unexpired and below its redemption cap; a reward at its cap
(or inactive, expired, or deleted) makes the call fail with a different
error first. -/
theorem claim_C6 (s : Store) (uid qr fid : String) (now : Int) (rid : String)
    (h0 : jsTrim qr ≠ "")
    (h1 : (s.redemptions.any (fun r =>
      r.userId = uid ∧ r.rewardId = rid ∧ r.used = false)) = true)
    (h2 : extractRewardId qr = some rid) :
    ((redeemByQR s uid qr now fid).2 = s ∧
     ∃ e, (redeemByQR s uid qr now fid).1 = Except.error e) ∧
    (∀ reward : RewardDoc, s.lookupReward rid = some reward →
      reward.active = true → rewardExpired reward now = false →
      (reward.maxRedemptions = 0 ∨ reward.currentRedemptions < reward.maxRedemptions) →
      (redeemByQR s uid qr now fid).1 = Except.error Err.alreadyExists) := by
  unfold redeemByQR
  rw [if_neg h0, h2]
  dsimp only
  cases hlr : s.lookupReward rid with
  | none =>
    refine ⟨⟨rfl, Err.notFound, rfl⟩, ?_⟩
    intro reward hre
    cases hre
  | some reward =>
    dsimp only
    by_cases hact : reward.active = true
    · rw [if_neg (by simp [hact])]
      by_cases hexp : rewardExpired reward now = true
      · rw [if_pos hexp]
        refine ⟨⟨rfl, Err.failedPrecondition, rfl⟩, ?_⟩
        intro r0 hre ha hx hc
        cases hre
        rw [hx] at hexp
        cases hexp
      · rw [if_neg hexp]
        by_cases hcap : reward.maxRedemptions ≠ 0 ∧ reward.currentRedemptions ≥ reward.maxRedemptions
        · rw [if_pos hcap]
          refine ⟨⟨rfl, Err.failedPrecondition, rfl⟩, ?_⟩
          intro r0 hre ha hx hc
          cases hre
          rcases hc with hc0 | hlt
          · exact absurd hc0 hcap.1
          · omega
        · rw [if_neg hcap, if_pos h1]
          exact ⟨⟨rfl, Err.alreadyExists, rfl⟩, fun r0 hre ha hx hc => rfl⟩
    · rw [if_pos (by simp [hact])]
      refine ⟨⟨rfl, Err.failedPrecondition, rfl⟩, ?_⟩
      intro r0 hre ha hx hc
      cases hre
      exact absurd ha hact

/-- C6 (witness for the amended theorem): after one successful redemption of
the uncapped reward, a second call by the same user fails `AlreadyExists`
with no store change. -/
theorem claim_C6_witness :
    ((redeemByQR exStoreUncappedAfter "u" exRewardQR 6000 "red2").2 = exStoreUncappedAfter ∧
     ∃ e, (redeemByQR exStoreUncappedAfter "u" exRewardQR 6000 "red2").1 = Except.error e) ∧
    (∀ reward : RewardDoc, exStoreUncappedAfter.lookupReward "reward9876" = some reward →
      reward.active = true → rewardExpired reward 6000 = false →
      (reward.maxRedemptions = 0 ∨ reward.currentRedemptions < reward.maxRedemptions) →
      (redeemByQR exStoreUncappedAfter "u" exRewardQR 6000 "red2").1 =
        Except.error Err.alreadyExists) :=
  claim_C6 exStoreUncappedAfter "u" exRewardQR "red2" 6000 "reward9876"
    (by decide) (by decide) (by decide)


theorem setUser_ledger (s : Store) (uid : String) (u : UserDoc) :
    (s.setUser uid u).ledger = s.ledger := rfl

theorem setUser_users (s : Store) (uid : String) (u : UserDoc) :
    (s.setUser uid u).users = s.users.map (fun p => if p.1 = uid then (p.1, u) else p) := rfl

theorem lookupUser_eq (s : Store) (v : String) :
    s.lookupUser v = (s.users.find? (fun p => p.1 = v)).map Prod.snd := rfl

/-- C1 (amended): the ledger-replay invariant is preserved by the two
operations that pair a balance write with a ledger append — `awardUserXP`
and `releaseSpotXP` each append exactly one AWARD entry whose amount equals
the applied `xpPoints` delta, leaving the existing entries untouched — but
it does not hold for the full operation set: `adminGrantXP` (and
`redeemByQR`) mutate XP balances without appending any entry, and a clamped
`adjustUserXP` records the raw adjustment rather than the applied delta. -/
theorem claim_C1 (s : Store) (uid action spotId v : String) (amount : Int)
    (h : ledgerConsistent s v) :
    (ledgerConsistent (awardUserXP s uid action amount).2 v ∧
     ∃ t1, (awardUserXP s uid action amount).2.ledger = s.ledger ++ t1) ∧
    (ledgerConsistent (releaseSpotXP s uid spotId amount).2 v ∧
     ∃ t2, (releaseSpotXP s uid spotId amount).2.ledger = s.ledger ++ t2) := by
  constructor
  · unfold awardUserXP
    cases hlu : s.lookupUser uid with
    | none => exact ⟨h, [], by simp⟩
    | some userData =>
      dsimp only
      constructor
      · unfold ledgerConsistent at h ⊢
        dsimp only
        rw [setUser_ledger, List.filter_append, replayXP_append,
          lookupUser_eq, setUser_users]
        rw [lookupUser_eq] at h
        by_cases hv : v = uid
        · subst hv
          have hsome : (s.users.find? (fun p => p.1 = v)).isSome = true := by
            rw [lookupUser_eq] at hlu
            cases hfind : s.users.find? (fun p => p.1 = v) with
            | none => rw [hfind] at hlu; cases hlu
            | some p => rfl
          rw [find_map_set_self v _ s.users hsome]
          rw [lookupUser_eq] at hlu
          rw [hlu] at h
          simp only [Option.map_some', Option.getD_some] at h ⊢
          simp [replayXP]
          exact h
        · rw [find_map_set_other uid v _ hv s.users]
          have hf : (fun (e : LedgerEntry) => decide (e.userId = v))
              ({ userId := uid, action := action, amount := amount,
                 previousXP := userData.xpPoints,
                 newXP := userData.xpPoints + amount,
                 entryType := "AWARD" } : LedgerEntry) = false := by
            simp only [decide_eq_false_iff_not]
            exact fun hh => hv hh.symm
          simp only [List.filter_cons, hf, List.filter_nil, if_false, Bool.false_eq_true]
          simpa [replayXP] using h
      · exact ⟨_, rfl⟩
  · unfold releaseSpotXP
    cases hlu : s.lookupUser uid with
    | none => exact ⟨h, [], by simp⟩
    | some userData =>
      dsimp only
      constructor
      · unfold ledgerConsistent at h ⊢
        dsimp only
        rw [setUser_ledger, List.filter_append, replayXP_append,
          lookupUser_eq, setUser_users]
        rw [lookupUser_eq] at h
        by_cases hv : v = uid
        · subst hv
          have hsome : (s.users.find? (fun p => p.1 = v)).isSome = true := by
            rw [lookupUser_eq] at hlu
            cases hfind : s.users.find? (fun p => p.1 = v) with
            | none => rw [hfind] at hlu; cases hlu
            | some p => rfl
          rw [find_map_set_self v _ s.users hsome]
          rw [lookupUser_eq] at hlu
          rw [hlu] at h
          simp only [Option.map_some', Option.getD_some] at h ⊢
          simp [replayXP]
          exact h
        · rw [find_map_set_other uid v _ hv s.users]
          have hf : (fun (e : LedgerEntry) => decide (e.userId = v))
              ({ userId := uid, action := "SPOT_APPROVED", amount := amount,
                 previousXP := userData.xpPoints,
                 newXP := userData.xpPoints + amount,
                 entryType := "AWARD" } : LedgerEntry) = false := by
            simp only [decide_eq_false_iff_not]
            exact fun hh => hv hh.symm
          simp only [List.filter_cons, hf, List.filter_nil, if_false, Bool.false_eq_true]
          simpa [replayXP] using h
      · exact ⟨_, rfl⟩

/-- C1 (witness for the amended theorem): the invariant is preserved for the
fresh consistent store when awarding and releasing 25 XP. -/
theorem claim_C1_witness :
    (ledgerConsistent (awardUserXP exStoreLedger "u" "VISIT_SPOT" 25).2 "u" ∧
     ∃ t1, (awardUserXP exStoreLedger "u" "VISIT_SPOT" 25).2.ledger =
       exStoreLedger.ledger ++ t1) ∧
    (ledgerConsistent (releaseSpotXP exStoreLedger "u" "spot1" 25).2 "u" ∧
     ∃ t2, (releaseSpotXP exStoreLedger "u" "spot1" 25).2.ledger =
       exStoreLedger.ledger ++ t2) :=
  claim_C1 exStoreLedger "u" "VISIT_SPOT" "spot1" "u" 25
    (by unfold ledgerConsistent; decide)

/-- C8: for every spot verification, each of the five sub-scores lies in
[0,100]; the overall score equals
round((location·30 + photo·20 + duplicate·20 + trust·20 + content·10)/100),
here in closed integer form (w + 50) / 100; and the status is FLAGGED
exactly when a hard-stop flag is present regardless of score, else
AUTO_APPROVED exactly when the score is at least 80, else PENDING. -/
theorem claim_C8 (dist : ℚ → ℚ → ℚ → ℚ → ℚ) (s : Store) (now todayStart : Int)
    (spot : SpotDoc) :
    let r := performSpotVerification dist s now todayStart spot
    ((0 ≤ r.detailedScores.locationAccuracy ∧ r.detailedScores.locationAccuracy ≤ 100) ∧
     (0 ≤ r.detailedScores.photoVerification ∧ r.detailedScores.photoVerification ≤ 100) ∧
     (0 ≤ r.detailedScores.duplicateDetection ∧ r.detailedScores.duplicateDetection ≤ 100) ∧
     (0 ≤ r.detailedScores.userTrust ∧ r.detailedScores.userTrust ≤ 100) ∧
     (0 ≤ r.detailedScores.contentQuality ∧ r.detailedScores.contentQuality ≤ 100)) ∧
    r.score =
      (r.detailedScores.locationAccuracy * 30 + r.detailedScores.photoVerification * 20 +
       r.detailedScores.duplicateDetection * 20 + r.detailedScores.userTrust * 20 +
       r.detailedScores.contentQuality * 10 + 50) / 100 ∧
    (r.status = "FLAGGED" ↔ r.flags ≠ []) ∧
    (r.flags = [] →
      ((r.status = "AUTO_APPROVED" ↔ 80 ≤ r.score) ∧
       (r.status = "PENDING" ↔ r.score < 80))) := by
  intro r
  refine ⟨⟨?_, ?_, ?_, ?_, ?_⟩, ?_, ?_, ?_⟩
  · exact checkLocationAccuracy_score_range dist s now spot
  · exact checkPhotoVerification_score_range dist s spot
  · exact checkDuplicateSpots_score_range dist s spot
  · exact checkUserTrust_score_range s now todayStart spot.createdBy
  · exact checkContentQuality_score_range spot
  · exact combineVerification_score (checkLocationAccuracy dist s now spot)
      (checkPhotoVerification dist s spot) (checkDuplicateSpots dist s spot)
      (checkUserTrust s now todayStart spot.createdBy) (checkContentQuality spot)
  · exact (combineVerification_status (checkLocationAccuracy dist s now spot)
      (checkPhotoVerification dist s spot) (checkDuplicateSpots dist s spot)
      (checkUserTrust s now todayStart spot.createdBy) (checkContentQuality spot)).1
  · exact (combineVerification_status (checkLocationAccuracy dist s now spot)
      (checkPhotoVerification dist s spot) (checkDuplicateSpots dist s spot)
      (checkUserTrust s now todayStart spot.createdBy) (checkContentQuality spot)).2

/-- C9 (witness for the prefix-dependence part): two stores agreeing on the
first 100 redemption documents and the sponsors produce identical
validation reads. -/
theorem claim_C9_witness :
    validateRedemptionReads exStoreValidation "sv" exRedemptionQR =
      validateRedemptionReads exStoreValidationB "sv" exRedemptionQR :=
  claim_C9.1 exStoreValidation exStoreValidationB "sv" exRedemptionQR rfl rfl
